import Mathlib

/-!
# Verification development for the NSW population dashboard (`src/app.py`)

Shallow embedding of the dashboard script: a cached load-and-join of a
boundary shapefile and a population CSV, a year selection, a choropleth
map projection and summary statistics.

Modelling conventions:
* A tabular cell is a `Cell`: a string, an exact rational number (the CSV
  holds integer population counts, and the joined column becomes float,
  which is exact on these values), an opaque geometry token, or null
  (pandas `NaN` introduced by the left join).
* A dataframe row is an association list from column name to cell; a
  `DataFrame` is a column list plus a row list.
* The filesystem/parser environment of one input path is a `FileState`:
  the path is not a file, the parser raises (with a message), or parsing
  succeeds with a dataframe. `load_local_data` is embedded over two such
  states, mirroring the `is_file` checks, the two `try/except` blocks and
  the two schema checks of `app.py` lines 25-49 in source order.
* The Python `str.isnumeric` predicate is modelled as nonempty-and-all-ASCII-digits
  (the non-ASCII numeric code points are outside the data modelled here),
  and the Python `sorted` builtin on strings as a stable insertion sort under
  code-point lexicographic order, embedded explicitly as `pyStrLe`.
-/

namespace NswDashboard

/-- A single tabular cell value. -/
inductive Cell where
  | str (s : String)
  | num (q : ℚ)
  | geom (g : ℕ)
  | null
  deriving DecidableEq, Repr

/-- A dataframe row: association list from column name to cell. -/
abbrev Row := List (String × Cell)

/-- A dataframe: ordered column names plus rows. -/
structure DataFrame where
  cols : List String
  rows : List Row
  deriving DecidableEq, Repr

/-- Cell of row `r` at column `c` (pandas `row[c]`), if the key is present. -/
def getCell (r : Row) (c : String) : Option Cell :=
  List.lookup c r

/-- The state of one input path as seen by the loader: not a file, the
parser raises with message `msg`, or parsing yields a dataframe. -/
inductive FileState where
  | missing
  | readError (msg : String)
  | ok (df : DataFrame)
  deriving DecidableEq, Repr

/-- Embedding of `load_local_data` (`app.py` lines 25-49): check the
shapefile path, then the CSV path, then read the shapefile, then the CSV,
then check the `LGANAME` column of the shapefile, then of the CSV; return
the triple `(gdf, pop_df, error_message)`. Apostrophes of the original
messages are written as the escape `\x27`. -/
def load_local_data (shp csv : FileState) (shpPath csvPath : String) :
    Option DataFrame × Option DataFrame × Option String :=
  match shp with
  | .missing => (none, none, some ("Shapefile not found at: " ++ shpPath))
  | .readError e =>
    match csv with
    | .missing => (none, none, some ("CSV file not found at: " ++ csvPath))
    | _ => (none, none,
        some ("Fatal Error: Could not read or process shapefile. Details: " ++ e))
  | .ok gdf =>
    match csv with
    | .missing => (none, none, some ("CSV file not found at: " ++ csvPath))
    | .readError e => (none, none,
        some ("Fatal Error: Could not read CSV file. Details: " ++ e))
    | .ok popDf =>
      if "LGANAME" ∉ gdf.cols then
        (none, none, some ("Shapefile missing \x27LGANAME\x27 column. Columns: "
          ++ toString gdf.cols))
      else if "LGANAME" ∉ popDf.cols then
        (none, none, some ("CSV missing \x27LGANAME\x27 column. Columns: "
          ++ toString popDf.cols))
      else
        (some gdf, some popDf, none)

/-! ## Python string order and `str.isnumeric` -/

/-- Python `<=` on code-point lists: lexicographic. -/
def pyCharsLe : List Char → List Char → Bool
  | [], _ => true
  | _ :: _, [] => false
  | a :: s, b :: t => if a < b then true else if b < a then false else pyCharsLe s t

/-- Python `<=` on strings: code-point lexicographic order (what `sorted`
uses on the column-name strings). -/
def pyStrLe (a b : String) : Bool :=
  pyCharsLe a.toList b.toList

/-- `pyStrLe` as a relation, for the sorting lemmas. -/
def strLeP (a b : String) : Prop := pyStrLe a b = true

instance : DecidableRel strLeP := fun a b =>
  inferInstanceAs (Decidable (pyStrLe a b = true))

/-- Python `str.isnumeric` restricted to the ASCII data of this program:
nonempty and every character a decimal digit. -/
def str_isnumeric (s : String) : Bool :=
  !s.toList.isEmpty && s.toList.all (fun c => c.isDigit)

/-- Embedding of `app.py` line 62:
`sorted([col for col in population_df.columns if col.isnumeric()])`. -/
def year_columns (popDf : DataFrame) : List String :=
  (popDf.cols.filter str_isnumeric).insertionSort strLeP

/-! ## Left join (`gdf.merge(population_df, on="LGANAME", how="left")`) -/

/-- The rows of the population table whose `LGANAME` cell equals `k`
(the match set of one boundary row in a pandas left merge). -/
def matchingRows (popRows : List Row) (k : Option Cell) : List Row :=
  popRows.filter (fun rr => getCell rr "LGANAME" = k)

/-- One output row of the merge: the boundary row extended with the
non-key columns of the population row (`popOther`), values looked up in `rr`. -/
def joinRow (popOther : List String) (lr rr : Row) : Row :=
  lr ++ popOther.map (fun c => (c, (getCell rr c).getD Cell.null))

/-- One output row of the merge for an unmatched boundary row: the
non-key population columns are null-filled. -/
def nullRow (popOther : List String) (lr : Row) : Row :=
  lr ++ popOther.map (fun c => (c, Cell.null))

/-- All output rows produced by one boundary row: one per matching
population row, or a single null-filled row when there is no match. -/
def mergeRowsOf (popRows : List Row) (popOther : List String) (lr : Row) : List Row :=
  match matchingRows popRows (getCell lr "LGANAME") with
  | [] => [nullRow popOther lr]
  | ms => ms.map (joinRow popOther lr)

/-- Embedding of `app.py` line 61:
`merged_data = gdf.merge(population_df, on="LGANAME", how="left")`.
Left outer join on the `LGANAME` key: every boundary row is kept, each
paired with every matching population row, null-filled when unmatched. -/
def merged_data (gdf popDf : DataFrame) : DataFrame :=
  let popOther := popDf.cols.erase "LGANAME"
  { cols := gdf.cols ++ popOther
    rows := gdf.rows.flatMap (mergeRowsOf popDf.rows popOther) }

/-! ## Year filter (`dropna`) -/

/-- True when the cell at column `c` exists and is not null (the row
survives `dropna(subset=[c])`). -/
def cellPresent (r : Row) (c : String) : Bool :=
  match getCell r c with
  | some .null => false
  | some _ => true
  | none => false

/-- Embedding of `app.py` line 78:
`map_data = merged_data.dropna(subset=[selected_year])`. -/
def map_data (merged : DataFrame) (selectedYear : String) : DataFrame :=
  { cols := merged.cols
    rows := merged.rows.filter (fun r => cellPresent r selectedYear) }

/-- Embedding of `app.py` line 121:
`valid_data = merged_data.dropna(subset=[selected_year])` (the same
expression as line 78, written again for the statistics panel). -/
def valid_data (merged : DataFrame) (selectedYear : String) : DataFrame :=
  { cols := merged.cols
    rows := merged.rows.filter (fun r => cellPresent r selectedYear) }

/-! ## Numeric display helpers -/

/-- Python `int()` / numpy `astype(int)` on an exact value: truncation
toward zero. -/
def ratTrunc (q : ℚ) : ℤ :=
  q.num.tdiv q.den

/-- Rounding to the nearest integer, halves to even: the behaviour of
Python `format(x, ",.0f")` on an exact value. -/
def pyRound0 (q : ℚ) : ℤ :=
  let f := ⌊q⌋
  let frac := q - f
  if frac < 1/2 then f
  else if 1/2 < frac then f + 1
  else if f % 2 = 0 then f else f + 1

/-- Group a reversed digit list into blocks of three (low digits first). -/
def group3 : List Char → List (List Char)
  | [] => []
  | [a] => [[a]]
  | [a, b] => [[a, b]]
  | a :: b :: c :: rest => [a, b, c] :: group3 rest

/-- Thousands separation of a natural number: `1234567 ↦ "1,234,567"`. -/
def commaSepNat (n : ℕ) : String :=
  String.mk (((group3 (toString n).toList.reverse).intersperse [',']).flatten.reverse)

/-- Thousands separation of an integer (Python `"{:,}".format`). -/
def commaSepInt (i : ℤ) : String :=
  if i < 0 then "-" ++ commaSepNat i.natAbs else commaSepNat i.natAbs

/-- The Python format `"{:,.0f}"` applied to an exact value: round half
to even, then thousands-separate. -/
def fmtPop (q : ℚ) : String :=
  commaSepInt (pyRound0 q)

/-! ## Map projection (`app.py` lines 89-92) -/

/-- `astype(int)` on one cell: numeric values are truncated to integer. -/
def cellAstypeInt : Cell → Cell
  | .num q => .num ((ratTrunc q : ℤ) : ℚ)
  | c => c

/-- The projection of one filtered row to the three map columns, with the
year value coerced to integer. -/
def projRow (selectedYear : String) (r : Row) : Row :=
  [("geometry", (getCell r "geometry").getD Cell.null),
   ("LGANAME", (getCell r "LGANAME").getD Cell.null),
   (selectedYear, cellAstypeInt ((getCell r selectedYear).getD Cell.null))]

/-- Embedding of `app.py` lines 89-92:
`map_display_data = map_data[["geometry", "LGANAME", selected_year]].copy()`
followed by `astype(int)` on the year column. -/
def map_display_data (md : DataFrame) (selectedYear : String) : DataFrame :=
  { cols := ["geometry", "LGANAME", selectedYear]
    rows := md.rows.map (projRow selectedYear) }

/-! ## Statistics (`app.py` lines 124-146) -/

/-- The numeric value of row `r` in the year column (0 for a cell that is
not numeric; after `dropna` the cells of this column are numbers). -/
def yearVal (selectedYear : String) (r : Row) : ℚ :=
  match getCell r selectedYear with
  | some (.num q) => q
  | _ => 0

/-- `valid_data[selected_year].sum()`. -/
def total_population (vd : DataFrame) (selectedYear : String) : ℚ :=
  (vd.rows.map (yearVal selectedYear)).sum

/-- pandas `Series.median`: sort, take the middle element for odd length,
the mean of the two middle elements for even length. -/
def pdMedian (l : List ℚ) : ℚ :=
  let s := l.insertionSort (· ≤ ·)
  let n := s.length
  if n % 2 = 1 then s.getD (n / 2) 0
  else (s.getD (n / 2 - 1) 0 + s.getD (n / 2) 0) / 2

/-- `valid_data[selected_year].median()`. -/
def median_population (vd : DataFrame) (selectedYear : String) : ℚ :=
  pdMedian (vd.rows.map (yearVal selectedYear))

/-- Ascending lexicographic order on (value, original position) pairs of
rationals and naturals. -/
def lexLe (x y : ℚ × ℕ) : Prop :=
  x.1 < y.1 ∨ (x.1 = y.1 ∧ x.2 ≤ y.2)

instance : DecidableRel lexLe := fun x y =>
  inferInstanceAs (Decidable (x.1 < y.1 ∨ (x.1 = y.1 ∧ x.2 ≤ y.2)))

/-- Sort key of `nlargest` on an indexed row: descending by value
(encoded by negation), ties by ascending original position
(pandas `keep="first"`). -/
def keyTop (selectedYear : String) (p : ℕ × Row) : ℚ × ℕ :=
  (-(yearVal selectedYear p.2), p.1)

/-- Sort key of `nsmallest` on an indexed row: ascending by value, ties
by ascending original position. -/
def keyBot (selectedYear : String) (p : ℕ × Row) : ℚ × ℕ :=
  (yearVal selectedYear p.2, p.1)

/-- The `nlargest` order on indexed rows. -/
def rTop (selectedYear : String) (a b : ℕ × Row) : Prop :=
  lexLe (keyTop selectedYear a) (keyTop selectedYear b)

/-- The `nsmallest` order on indexed rows. -/
def rBot (selectedYear : String) (a b : ℕ × Row) : Prop :=
  lexLe (keyBot selectedYear a) (keyBot selectedYear b)

instance (y : String) : DecidableRel (rTop y) := fun a b =>
  inferInstanceAs (Decidable (lexLe (keyTop y a) (keyTop y b)))

instance (y : String) : DecidableRel (rBot y) := fun a b =>
  inferInstanceAs (Decidable (lexLe (keyBot y a) (keyBot y b)))

/-- pandas `DataFrame.nlargest(n, col)` with the default `keep="first"`:
the first `n` rows of a stable descending sort on `col` (ties resolved by
original position). -/
def pdNlargest (n : ℕ) (selectedYear : String) (rows : List Row) : List Row :=
  ((rows.enum.insertionSort (rTop selectedYear)).map Prod.snd).take n

/-- pandas `DataFrame.nsmallest(n, col)` with the default `keep="first"`:
the first `n` rows of a stable ascending sort on `col`. -/
def pdNsmallest (n : ℕ) (selectedYear : String) (rows : List Row) : List Row :=
  ((rows.enum.insertionSort (rBot selectedYear)).map Prod.snd).take n

/-- The string cell of a row (the displayed `LGANAME`). -/
def lganameOf (r : Row) : String :=
  match getCell r "LGANAME" with
  | some (.str s) => s
  | _ => ""

/-- Embedding of `app.py` lines 137-140: the top-5 table, rows
`(LGANAME, formatted population)`, from
`valid_data.nlargest(5, selected_year)[["LGANAME", selected_year]]`
with format `"{:,.0f}"`. -/
def topTable (vd : DataFrame) (selectedYear : String) : List (String × String) :=
  (pdNlargest 5 selectedYear vd.rows).map
    (fun r => (lganameOf r, fmtPop (yearVal selectedYear r)))

/-- Embedding of `app.py` lines 143-146: the bottom-5 table. -/
def bottomTable (vd : DataFrame) (selectedYear : String) : List (String × String) :=
  (pdNsmallest 5 selectedYear vd.rows).map
    (fun r => (lganameOf r, fmtPop (yearVal selectedYear r)))

/-! ## The rendering pass (`app.py` lines 52-148) -/

/-- The statistics panel (`app.py` lines 123-148): either the non-empty
branch with the three formatted metrics and the two ranked tables, or the
empty-state warning. -/
inductive StatsPanel where
  | stats (totalDisplay medianDisplay countDisplay : String)
      (top bottom : List (String × String))
  | warning (msg : String)
  deriving DecidableEq, Repr

/-- The rendered page of one successful pass: the base-map viewpoint
(`folium.Map(location=[-32.5, 148.5], zoom_start=6)`), the optional
choropleth data (skipped when the filtered dataset is empty), and the
statistics panel. -/
structure Page where
  mapCenter : ℚ × ℚ
  mapZoom : ℕ
  overlay : Option DataFrame
  stats : StatsPanel
  deriving DecidableEq, Repr

/-- Outcome of one top-to-bottom evaluation of the script: a fatal
`st.error` + `st.stop` with its message, or a rendered page. -/
inductive AppOutcome where
  | fatal (msg : String)
  | page (p : Page)
  deriving DecidableEq, Repr

/-- True when the outcome is a rendered page (no `st.stop` was hit). -/
def AppOutcome.isPage : AppOutcome → Bool
  | .page _ => true
  | .fatal _ => false

/-- Embedding of the script body (`app.py` lines 52-148): load, stop on a
load error, join, discover year columns, stop when there are none,
filter by the selected year, build the map (overlay skipped on an empty
filter) and the statistics panel (warning on an empty filter).
`sel` is the year chosen in the sidebar; the selectbox guarantees it is
one of `year_columns`. The final catch-all arm is unreachable: the loader
never returns a half-populated triple (proved below for claim C10). -/
def runApp (shp csv : FileState) (shpPath csvPath sel : String) : AppOutcome :=
  match load_local_data shp csv shpPath csvPath with
  | (_, _, some msg) => .fatal msg
  | (some gdf, some popDf, none) =>
    let merged := merged_data gdf popDf
    if (year_columns popDf).isEmpty then
      .fatal "No numeric year columns were found in the CSV file."
    else
      let md := map_data merged sel
      let vd := valid_data merged sel
      .page
        { mapCenter := (-65/2, 297/2)
          mapZoom := 6
          overlay :=
            if md.rows.isEmpty then none else some (map_display_data md sel)
          stats :=
            if vd.rows.isEmpty then
              .warning ("No population data available for the selected year: " ++ sel)
            else
              .stats (commaSepInt (ratTrunc (total_population vd sel)))
                (commaSepInt (ratTrunc (median_population vd sel)))
                (toString vd.rows.length ++ " / " ++ toString gdf.rows.length)
                (topTable vd sel) (bottomTable vd sel) }
  | _ => .fatal ""

/-! ## Order lemmas for the embedded sorts -/

theorem pyCharsLe_total : ∀ s t, pyCharsLe s t = true ∨ pyCharsLe t s = true
  | [], _ => Or.inl rfl
  | _ :: _, [] => Or.inr rfl
  | a :: s, b :: t => by
    simp only [pyCharsLe]
    rcases lt_trichotomy a b with hab | hab | hab
    · left; rw [if_pos hab]
    · subst hab
      rw [if_neg (lt_irrefl a), if_neg (lt_irrefl a), if_neg (lt_irrefl a),
        if_neg (lt_irrefl a)]
      exact pyCharsLe_total s t
    · right; rw [if_pos hab]

theorem pyCharsLe_trans :
    ∀ s t u, pyCharsLe s t = true → pyCharsLe t u = true → pyCharsLe s u = true
  | [], _, _, _, _ => rfl
  | _ :: _, [], _, h1, _ => by simp [pyCharsLe] at h1
  | _ :: _, _ :: _, [], _, h2 => by simp [pyCharsLe] at h2
  | a :: s, b :: t, c :: u, h1, h2 => by
    simp only [pyCharsLe] at h1 h2 ⊢
    rcases lt_trichotomy a b with hab | hab | hab
    · rcases lt_trichotomy b c with hbc | hbc | hbc
      · rw [if_pos (lt_trans hab hbc)]
      · subst hbc; rw [if_pos hab]
      · rw [if_neg (asymm hbc), if_pos hbc] at h2; simp at h2
    · subst hab
      rw [if_neg (lt_irrefl a), if_neg (lt_irrefl a)] at h1
      rcases lt_trichotomy a c with hac | hac | hac
      · rw [if_pos hac]
      · subst hac
        rw [if_neg (lt_irrefl a), if_neg (lt_irrefl a)] at h2 ⊢
        exact pyCharsLe_trans s t u h1 h2
      · rw [if_neg (asymm hac), if_pos hac] at h2; simp at h2
    · rw [if_neg (asymm hab), if_pos hab] at h1; simp at h1

theorem pyCharsLe_antisymm :
    ∀ s t, pyCharsLe s t = true → pyCharsLe t s = true → s = t
  | [], [], _, _ => rfl
  | [], _ :: _, _, h2 => by simp [pyCharsLe] at h2
  | _ :: _, [], h1, _ => by simp [pyCharsLe] at h1
  | a :: s, b :: t, h1, h2 => by
    simp only [pyCharsLe] at h1 h2
    rcases lt_trichotomy a b with hab | hab | hab
    · rw [if_neg (asymm hab), if_pos hab] at h2; simp at h2
    · subst hab
      rw [if_neg (lt_irrefl a), if_neg (lt_irrefl a)] at h1 h2
      rw [pyCharsLe_antisymm s t h1 h2]
    · rw [if_neg (asymm hab), if_pos hab] at h1; simp at h1

theorem string_toList_inj {a b : String} (h : a.toList = b.toList) : a = b := by
  cases a; cases b; simp only [String.toList] at h; rw [h]

instance : IsTotal String strLeP :=
  ⟨fun a b => pyCharsLe_total a.toList b.toList⟩

instance : IsTrans String strLeP :=
  ⟨fun a b c => pyCharsLe_trans a.toList b.toList c.toList⟩

instance : IsAntisymm String strLeP :=
  ⟨fun a b h1 h2 => string_toList_inj (pyCharsLe_antisymm a.toList b.toList h1 h2)⟩

theorem lexLe_total (x y : ℚ × ℕ) : lexLe x y ∨ lexLe y x := by
  rcases lt_trichotomy x.1 y.1 with h | h | h
  · exact Or.inl (Or.inl h)
  · rcases Nat.le_total x.2 y.2 with h2 | h2
    · exact Or.inl (Or.inr ⟨h, h2⟩)
    · exact Or.inr (Or.inr ⟨h.symm, h2⟩)
  · exact Or.inr (Or.inl h)

theorem lexLe_trans {x y z : ℚ × ℕ} (h1 : lexLe x y) (h2 : lexLe y z) : lexLe x z := by
  rcases h1 with h1 | ⟨h1e, h1n⟩
  · rcases h2 with h2 | ⟨h2e, _⟩
    · exact Or.inl (lt_trans h1 h2)
    · exact Or.inl (h2e ▸ h1)
  · rcases h2 with h2 | ⟨h2e, h2n⟩
    · exact Or.inl (h1e ▸ h2)
    · exact Or.inr ⟨h1e.trans h2e, le_trans h1n h2n⟩

instance (y : String) : IsTotal (ℕ × Row) (rTop y) :=
  ⟨fun a b => lexLe_total (keyTop y a) (keyTop y b)⟩

instance (y : String) : IsTrans (ℕ × Row) (rTop y) :=
  ⟨fun _ _ _ h1 h2 => lexLe_trans h1 h2⟩

instance (y : String) : IsTotal (ℕ × Row) (rBot y) :=
  ⟨fun a b => lexLe_total (keyBot y a) (keyBot y b)⟩

instance (y : String) : IsTrans (ℕ × Row) (rBot y) :=
  ⟨fun _ _ _ h1 h2 => lexLe_trans h1 h2⟩

/-! ## Digit strings: lexical order coincides with numeric order -/

/-- Numeric value of a decimal digit character. -/
def digitVal (c : Char) : ℕ := c.toNat - 48

/-- Numeric value of a digit string (most significant digit first). -/
def digitsVal : List Char → ℕ
  | [] => 0
  | a :: s => digitVal a * 10 ^ s.length + digitsVal s

/-- Numeric value of an all-digit column name such as `"2016"`. -/
def strNatVal (s : String) : ℕ := digitsVal s.toList

theorem toNat_bounds_of_isDigit {c : Char} (h : c.isDigit = true) :
    48 ≤ c.toNat ∧ c.toNat ≤ 57 := by
  simp [Char.isDigit] at h; exact h

theorem char_lt_iff_toNat {a b : Char} : a < b ↔ a.toNat < b.toNat := by
  exact_mod_cast Char.lt_iff_val_lt_val

theorem digitVal_lt_of_lt {a b : Char} (ha : a.isDigit = true) (hb : b.isDigit = true)
    (h : a < b) : digitVal a < digitVal b := by
  have h1 := toNat_bounds_of_isDigit ha
  have h2 := toNat_bounds_of_isDigit hb
  have h3 := char_lt_iff_toNat.mp h
  unfold digitVal
  omega

theorem digitsVal_lt_pow : ∀ {s : List Char}, (∀ c ∈ s, c.isDigit = true) →
    digitsVal s < 10 ^ s.length
  | [], _ => by simp [digitsVal]
  | a :: s, h => by
    have ha := h a (List.mem_cons_self a s)
    have ih := digitsVal_lt_pow (fun c hc => h c (List.mem_cons_of_mem a hc))
    have hv : digitVal a ≤ 9 := by
      have := toNat_bounds_of_isDigit ha
      unfold digitVal
      omega
    have hm : digitVal a * 10 ^ s.length ≤ 9 * 10 ^ s.length :=
      Nat.mul_le_mul_right _ hv
    simp only [digitsVal, List.length_cons, pow_succ]
    omega

theorem digitsVal_head_lt {a b : Char} {s t : List Char}
    (hlen : s.length = t.length) (hs : ∀ c ∈ s, c.isDigit = true)
    (ha : a.isDigit = true) (hb : b.isDigit = true) (hab : a < b) :
    digitsVal (a :: s) < digitsVal (b :: t) := by
  have h1 := digitsVal_lt_pow hs
  have h3 : digitVal a + 1 ≤ digitVal b := digitVal_lt_of_lt ha hb hab
  have hm : (digitVal a + 1) * 10 ^ s.length ≤ digitVal b * 10 ^ s.length :=
    Nat.mul_le_mul_right _ h3
  have he : (digitVal a + 1) * 10 ^ s.length
      = digitVal a * 10 ^ s.length + 10 ^ s.length := by ring
  simp only [digitsVal]
  rw [← hlen]
  omega

theorem pyCharsLe_iff_digitsVal :
    ∀ s t, s.length = t.length → (∀ c ∈ s, c.isDigit = true) →
      (∀ c ∈ t, c.isDigit = true) →
      (pyCharsLe s t = true ↔ digitsVal s ≤ digitsVal t)
  | [], [], _, _, _ => by simp [pyCharsLe]
  | [], _ :: _, h, _, _ => by simp at h
  | _ :: _, [], h, _, _ => by simp at h
  | a :: s, b :: t, hlen, hs, ht => by
    have hlen' : s.length = t.length := by simpa using hlen
    have ha := hs a (List.mem_cons_self a s)
    have hb := ht b (List.mem_cons_self b t)
    have hs' := fun c hc => hs c (List.mem_cons_of_mem a hc)
    have ht' := fun c hc => ht c (List.mem_cons_of_mem b hc)
    simp only [pyCharsLe]
    rcases lt_trichotomy a b with hab | hab | hab
    · rw [if_pos hab]
      exact iff_of_true rfl (digitsVal_head_lt hlen' hs' ha hb hab).le
    · subst hab
      rw [if_neg (lt_irrefl a), if_neg (lt_irrefl a)]
      have ih := pyCharsLe_iff_digitsVal s t hlen' hs' ht'
      simp only [digitsVal]
      rw [← hlen']
      constructor
      · intro h
        exact Nat.add_le_add_left (ih.mp h) _
      · intro h
        exact ih.mpr (Nat.le_of_add_le_add_left h)
    · rw [if_neg (asymm hab), if_pos hab]
      exact iff_of_false (by simp)
        (not_le.mpr (digitsVal_head_lt hlen'.symm ht' hb ha hab))

theorem isnumeric_digits {s : String} (h : str_isnumeric s = true) :
    ∀ c ∈ s.toList, c.isDigit = true := by
  simp only [str_isnumeric, Bool.and_eq_true, List.all_eq_true] at h
  exact h.2

theorem toList_length (s : String) : s.toList.length = s.length := rfl

/-- The column list of the year-discovery example in the spec. -/
def yearColsExample : DataFrame := ⟨["2016", "LGANAME", "2021", "2019"], []⟩

/-- C3: the discovered year labels are exactly the all-digit column names
of the population table; the output is ascending in the (embedded Python)
lexical string order; it is invariant under permutations of the source
column order; the example `["2016", "LGANAME", "2021", "2019"]` yields
`["2016", "2019", "2021"]`; and on 4-digit labels the lexical order
coincides with numeric order. -/
theorem c3_year_column_discovery (popDf : DataFrame) :
    (∀ c, c ∈ year_columns popDf ↔ c ∈ popDf.cols ∧ str_isnumeric c = true)
    ∧ List.Sorted strLeP (year_columns popDf)
    ∧ (∀ other : DataFrame, popDf.cols.Perm other.cols →
        year_columns popDf = year_columns other)
    ∧ year_columns yearColsExample = ["2016", "2019", "2021"]
    ∧ (∀ a b, a ∈ year_columns popDf → b ∈ year_columns popDf →
        a.length = 4 → b.length = 4 →
        (strLeP a b ↔ strNatVal a ≤ strNatVal b)) := by
  have h1 : ∀ c, c ∈ year_columns popDf ↔ c ∈ popDf.cols ∧ str_isnumeric c = true := by
    intro c
    unfold year_columns
    rw [(List.perm_insertionSort strLeP _).mem_iff, List.mem_filter]
  refine ⟨h1, List.sorted_insertionSort strLeP _, fun other hp => ?_, by decide,
    fun a b hay hby h4a h4b => ?_⟩
  · exact List.eq_of_perm_of_sorted
      ((List.perm_insertionSort strLeP _).trans
        ((hp.filter _).trans (List.perm_insertionSort strLeP _).symm))
      (List.sorted_insertionSort strLeP _) (List.sorted_insertionSort strLeP _)
  · have da := isnumeric_digits ((h1 a).mp hay).2
    have db := isnumeric_digits ((h1 b).mp hby).2
    have hlen : a.toList.length = b.toList.length := by
      rw [toList_length, toList_length, h4a, h4b]
    exact pyCharsLe_iff_digitsVal a.toList b.toList hlen da db

/-- Witness for C3: concrete instances of the membership and of the
lexical-numeric coincidence, discharged on the example table. -/
theorem c3_year_column_discovery_witness :
    ("2016" ∈ year_columns yearColsExample ↔
      "2016" ∈ yearColsExample.cols ∧ str_isnumeric "2016" = true)
    ∧ (strLeP "2016" "2019" ↔ strNatVal "2016" ≤ strNatVal "2019") :=
  ⟨(c3_year_column_discovery yearColsExample).1 "2016",
   (c3_year_column_discovery yearColsExample).2.2.2.2 "2016" "2019"
     (by decide) (by decide) (by decide) (by decide)⟩

/-! ## Loader claims -/

theorem append_ne_empty {a : String} (h : a ≠ "") (b : String) : a ++ b ≠ "" := by
  intro hab
  have hlen := congrArg String.length hab
  simp only [String.length_append] at hlen
  apply h
  apply String.ext
  have h0 : a.length = 0 := by
    have : String.length "" = 0 := rfl
    omega
  have : a.data.length = 0 := h0
  simp [List.length_eq_zero.mp this]

/-- C10: the loader is total over its result triple: for every pair of
input states it returns either both datasets and no error, or no dataset
and a non-empty error message; parser failures are converted into the
returned message (the `readError` states land in the second disjunct). -/
theorem c10_loader_total (shp csv : FileState) (sp cp : String) :
    (∃ g p, load_local_data shp csv sp cp = (some g, some p, none))
    ∨ (∃ m, load_local_data shp csv sp cp = (none, none, some m) ∧ m ≠ "") := by
  cases shp with
  | missing => exact Or.inr ⟨_, rfl, append_ne_empty (by decide) _⟩
  | readError e =>
    cases csv with
    | missing => exact Or.inr ⟨_, rfl, append_ne_empty (by decide) _⟩
    | readError f => exact Or.inr ⟨_, rfl, append_ne_empty (by decide) _⟩
    | ok p => exact Or.inr ⟨_, rfl, append_ne_empty (by decide) _⟩
  | ok g =>
    cases csv with
    | missing => exact Or.inr ⟨_, rfl, append_ne_empty (by decide) _⟩
    | readError f => exact Or.inr ⟨_, rfl, append_ne_empty (by decide) _⟩
    | ok p =>
      by_cases hg : "LGANAME" ∈ g.cols
      · by_cases hp : "LGANAME" ∈ p.cols
        · exact Or.inl ⟨g, p, by simp [load_local_data, hg, hp]⟩
        · exact Or.inr ⟨"CSV missing \x27LGANAME\x27 column. Columns: "
              ++ toString p.cols,
            by simp [load_local_data, hg, hp], append_ne_empty (by decide) _⟩
      · exact Or.inr ⟨"Shapefile missing \x27LGANAME\x27 column. Columns: "
            ++ toString g.cols,
          by simp [load_local_data, hg], append_ne_empty (by decide) _⟩

/-- C5: the checks of the loader fire in source order — missing shapefile,
missing CSV, shapefile parse failure, CSV parse failure, shapefile
schema, CSV schema — each with its message: the missing-file messages
name the missing path, the read errors wrap the parser message, the
schema errors list the discovered column names; when everything passes,
both datasets are returned. -/
theorem c5_loader_error_order (shp csv : FileState) (sp cp : String) :
    (shp = .missing →
      load_local_data shp csv sp cp
        = (none, none, some ("Shapefile not found at: " ++ sp)))
    ∧ (shp ≠ .missing → csv = .missing →
      load_local_data shp csv sp cp
        = (none, none, some ("CSV file not found at: " ++ cp)))
    ∧ (∀ e, shp = .readError e → csv ≠ .missing →
      load_local_data shp csv sp cp
        = (none, none,
            some ("Fatal Error: Could not read or process shapefile. Details: " ++ e)))
    ∧ (∀ g e, shp = .ok g → csv = .readError e →
      load_local_data shp csv sp cp
        = (none, none, some ("Fatal Error: Could not read CSV file. Details: " ++ e)))
    ∧ (∀ g p, shp = .ok g → csv = .ok p → "LGANAME" ∉ g.cols →
      load_local_data shp csv sp cp
        = (none, none,
            some ("Shapefile missing \x27LGANAME\x27 column. Columns: "
              ++ toString g.cols)))
    ∧ (∀ g p, shp = .ok g → csv = .ok p → "LGANAME" ∈ g.cols → "LGANAME" ∉ p.cols →
      load_local_data shp csv sp cp
        = (none, none,
            some ("CSV missing \x27LGANAME\x27 column. Columns: "
              ++ toString p.cols)))
    ∧ (∀ g p, shp = .ok g → csv = .ok p → "LGANAME" ∈ g.cols → "LGANAME" ∈ p.cols →
      load_local_data shp csv sp cp = (some g, some p, none)) := by
  refine ⟨fun h => ?_, fun h1 h2 => ?_, fun e h1 h2 => ?_, fun g e h1 h2 => ?_,
    fun g p h1 h2 h3 => ?_, fun g p h1 h2 h3 h4 => ?_, fun g p h1 h2 h3 h4 => ?_⟩
  · subst h; rfl
  · subst h2
    cases shp with
    | missing => exact absurd rfl h1
    | readError e => rfl
    | ok g => rfl
  · subst h1
    cases csv with
    | missing => exact absurd rfl h2
    | readError f => rfl
    | ok p => rfl
  · subst h1; subst h2; rfl
  · subst h1; subst h2; simp [load_local_data, h3]
  · subst h1; subst h2; simp [load_local_data, h3, h4]
  · subst h1; subst h2; simp [load_local_data, h3, h4]

/-- Witness for C5: a shapefile whose parser raises combined with a CSV
that would also fail the schema check yields the shapefile read error
(parse is checked before schema). -/
theorem c5_loader_error_order_witness :
    load_local_data (.readError "boom") (.ok ⟨["Name"], []⟩) "data/lga.shp" "data/lga.csv"
      = (none, none,
          some "Fatal Error: Could not read or process shapefile. Details: boom") :=
  (c5_loader_error_order (.readError "boom") (.ok ⟨["Name"], []⟩)
    "data/lga.shp" "data/lga.csv").2.2.1 "boom" rfl (by decide)

/-! ## Filter claims -/

/-- C2: for every joined dataset and selected year, the line-78 filter
(map data) and the line-121 filter (statistics data) are the same
dataset; it keeps the columns, is a sublist of the joined rows, and
contains exactly the rows whose cell at the selected year is present
(non-null), with multiplicities. -/
theorem c2_filter_agreement (merged : DataFrame) (y : String) :
    map_data merged y = valid_data merged y
    ∧ (map_data merged y).rows.Sublist merged.rows
    ∧ (∀ r, r ∈ (map_data merged y).rows ↔ r ∈ merged.rows ∧ cellPresent r y = true)
    ∧ (∀ r, (map_data merged y).rows.count r
        = if cellPresent r y then merged.rows.count r else 0)
    ∧ (map_data merged y).cols = merged.cols := by
  refine ⟨rfl, List.filter_sublist _, fun r => by
    simp [map_data, List.mem_filter], fun r => ?_, rfl⟩
  by_cases h : cellPresent r y
  · simp only [map_data, if_pos h]
    exact List.count_filter (by simpa using h)
  · simp only [map_data, if_neg h]
    refine List.count_eq_zero.mpr (fun hc => ?_)
    exact h ((List.mem_filter.mp hc).2)

/-! ## Join cardinality (claim C1) -/

/-- Boundary dataset of the duplicate-key counterexample: one region. -/
def gdfDup : DataFrame :=
  ⟨["LGANAME", "geometry"], [[("LGANAME", .str "A"), ("geometry", .geom 0)]]⟩

/-- Population table of the duplicate-key counterexample: two rows with
the same `LGANAME`. -/
def popDup : DataFrame :=
  ⟨["LGANAME", "2020"],
   [[("LGANAME", .str "A"), ("2020", .num 100)],
    [("LGANAME", .str "A"), ("2020", .num 200)]]⟩

/-- C1 counterexample: a boundary dataset and a population table sharing
the `LGANAME` value `"A"` whose left join has two rows while the boundary
dataset has one — the pandas left merge duplicates a boundary row for
each matching population row. -/
theorem c1_join_counterexample :
    ((gdfDup.rows.map (fun r => getCell r "LGANAME")).contains
      (some (.str "A")) = true)
    ∧ ((popDup.rows.map (fun r => getCell r "LGANAME")).contains
      (some (.str "A")) = true)
    ∧ (merged_data gdfDup popDup).rows.length = 2
    ∧ gdfDup.rows.length = 1 := by decide

theorem matchingRows_length_le_one : ∀ (l : List Row) (k : Option Cell),
    (l.map (fun r => getCell r "LGANAME")).Nodup → (matchingRows l k).length ≤ 1
  | [], _, _ => by simp [matchingRows]
  | r :: l, k, h => by
    rw [List.map_cons, List.nodup_cons] at h
    by_cases hk : getCell r "LGANAME" = k
    · have hnil : matchingRows l k = [] := by
        rw [List.eq_nil_iff_forall_not_mem]
        intro x hx
        have hx' := List.mem_filter.mp hx
        have hxk : getCell x "LGANAME" = k := by simpa using hx'.2
        exact h.1 (List.mem_map.mpr ⟨x, hx'.1, hxk.trans hk.symm⟩)
      have hcons : matchingRows (r :: l) k = r :: matchingRows l k := by
        simp [matchingRows, List.filter_cons, hk]
      rw [hcons, hnil]
      simp
    · have ih := matchingRows_length_le_one l k h.2
      simpa [matchingRows, List.filter_cons, hk] using ih

theorem mergeRowsOf_length {popRows : List Row} {popOther : List String} {lr : Row}
    (hle : (matchingRows popRows (getCell lr "LGANAME")).length ≤ 1) :
    (mergeRowsOf popRows popOther lr).length = 1 := by
  unfold mergeRowsOf
  cases hm : matchingRows popRows (getCell lr "LGANAME") with
  | nil => rfl
  | cons a t =>
    rw [hm] at hle
    simp only [List.length_cons] at hle
    have ht : t = [] := List.eq_nil_of_length_eq_zero (by omega)
    subst ht
    rfl

/-- C1 amended: for every boundary dataset and population table sharing
at least one common `LGANAME` value, *provided the population table has
at most one row per `LGANAME` value*, the left join has exactly as many
rows as the boundary dataset; and a boundary row with no match
contributes its null-filled extension to the join. (The unamended claim
is refuted by `c1_join_counterexample`: duplicated keys multiply rows.) -/
theorem c1_left_join_cardinality (gdf popDf : DataFrame)
    (_hshare : ∃ k, k ∈ gdf.rows.map (fun r => getCell r "LGANAME")
      ∧ k ∈ popDf.rows.map (fun r => getCell r "LGANAME"))
    (hnodup : (popDf.rows.map (fun r => getCell r "LGANAME")).Nodup) :
    (merged_data gdf popDf).rows.length = gdf.rows.length
    ∧ (∀ lr ∈ gdf.rows, matchingRows popDf.rows (getCell lr "LGANAME") = [] →
        nullRow (popDf.cols.erase "LGANAME") lr ∈ (merged_data gdf popDf).rows) := by
  constructor
  · show (gdf.rows.flatMap (mergeRowsOf popDf.rows (popDf.cols.erase "LGANAME"))).length
      = gdf.rows.length
    induction gdf.rows with
    | nil => rfl
    | cons r t ih =>
      rw [List.flatMap_cons, List.length_append, ih,
        mergeRowsOf_length (matchingRows_length_le_one _ _ hnodup)]
      simp [Nat.add_comm]
  · intro lr hlr hempty
    show nullRow _ lr ∈ gdf.rows.flatMap (mergeRowsOf popDf.rows _)
    refine List.mem_flatMap.mpr ⟨lr, hlr, ?_⟩
    unfold mergeRowsOf
    rw [hempty]
    exact List.mem_singleton.mpr rfl

/-! ## The end-to-end scenario (spec section 8) -/

/-- Scenario boundary dataset: regions A, B, C. -/
def gdfC : DataFrame :=
  ⟨["LGANAME", "geometry"],
   [[("LGANAME", .str "A"), ("geometry", .geom 0)],
    [("LGANAME", .str "B"), ("geometry", .geom 1)],
    [("LGANAME", .str "C"), ("geometry", .geom 2)]]⟩

/-- Scenario population table: A:100 and B:200 for year 2020. -/
def popC : DataFrame :=
  ⟨["LGANAME", "2020"],
   [[("LGANAME", .str "A"), ("2020", .num 100)],
    [("LGANAME", .str "B"), ("2020", .num 200)]]⟩

/-- Witness for C1 (amended): the scenario datasets share the value
`"A"`, the population keys are duplicate-free, and the join preserves
the three boundary rows. -/
theorem c1_left_join_cardinality_witness :
    (merged_data gdfC popC).rows.length = gdfC.rows.length :=
  (c1_left_join_cardinality gdfC popC
    ⟨some (.str "A"), by decide, by decide⟩ (by decide)).1

/-- Row A:100 of the joined scenario dataset. -/
def rowA : Row := [("LGANAME", .str "A"), ("geometry", .geom 0), ("2020", .num 100)]

/-- Row B:200 of the joined scenario dataset. -/
def rowB : Row := [("LGANAME", .str "B"), ("geometry", .geom 1), ("2020", .num 200)]

/-- The filtered dataset of the scenario: exactly rows A:100 and B:200. -/
def vdC : DataFrame := ⟨["LGANAME", "geometry", "2020"], [rowA, rowB]⟩

/-- C4: the end-to-end scenario: with regions A, B, C and population
rows A:100 and B:200 for year 2020, selecting 2020 filters to exactly
A:100 and B:200 (C is excluded as null), the total is 300, the median is
150, the count reads "2 / 3", the top-5 table is [B:200, A:100] and the
bottom-5 table is [A:100, B:200]. -/
theorem c4_end_to_end :
    map_data (merged_data gdfC popC) "2020" = vdC
    ∧ total_population vdC "2020" = 300
    ∧ median_population vdC "2020" = 150
    ∧ runApp (.ok gdfC) (.ok popC) "data/lga.shp" "data/lga.csv" "2020"
      = .page
        { mapCenter := (-65/2, 297/2)
          mapZoom := 6
          overlay := some
            { cols := ["geometry", "LGANAME", "2020"]
              rows :=
                [[("geometry", .geom 0), ("LGANAME", .str "A"), ("2020", .num 100)],
                 [("geometry", .geom 1), ("LGANAME", .str "B"), ("2020", .num 200)]] }
          stats := .stats "300" "150" "2 / 3"
            [("B", "200"), ("A", "100")] [("A", "100"), ("B", "200")] } := by
  have hfmt100 : fmtPop 100 = "100" := by
    have h : pyRound0 (100 : ℚ) = 100 := by norm_num [pyRound0]
    rw [fmtPop, h]; decide
  have hfmt200 : fmtPop 200 = "200" := by
    have h : pyRound0 (200 : ℚ) = 200 := by norm_num [pyRound0]
    rw [fmtPop, h]; decide
  have hvdf : valid_data (merged_data gdfC popC) "2020" = vdC := by decide
  have hmdf : map_data (merged_data gdfC popC) "2020" = vdC := by decide
  have hvals : vdC.rows.map (yearVal "2020") = [100, 200] := by decide
  have htot : total_population vdC "2020" = 300 := by
    rw [total_population, hvals]; norm_num
  have hmed : median_population vdC "2020" = 150 := by
    have hsort : List.insertionSort (fun a b => a ≤ b) ([100, 200] : List ℚ)
        = [100, 200] := by decide
    rw [median_population, hvals, pdMedian]
    norm_num [hsort]
  have hnl : pdNlargest 5 "2020" vdC.rows = [rowB, rowA] := by decide
  have hns : pdNsmallest 5 "2020" vdC.rows = [rowA, rowB] := by decide
  have hyA : yearVal "2020" rowA = 100 := by decide
  have hyB : yearVal "2020" rowB = 200 := by decide
  have hlA : lganameOf rowA = "A" := by decide
  have hlB : lganameOf rowB = "B" := by decide
  have htop : topTable vdC "2020" = [("B", "200"), ("A", "100")] := by
    rw [topTable, hnl]
    simp [hyA, hyB, hlA, hlB, hfmt100, hfmt200]
  have hbot : bottomTable vdC "2020" = [("A", "100"), ("B", "200")] := by
    rw [bottomTable, hns]
    simp [hyA, hyB, hlA, hlB, hfmt100, hfmt200]
  have hload : load_local_data (.ok gdfC) (.ok popC) "data/lga.shp" "data/lga.csv"
      = (some gdfC, some popC, none) := by decide
  have hyear : year_columns popC = ["2020"] := by decide
  have hdisp1 : commaSepInt (ratTrunc 300) = "300" := by decide
  have hdisp2 : commaSepInt (ratTrunc 150) = "150" := by decide
  have hover : map_display_data vdC "2020"
      = ⟨["geometry", "LGANAME", "2020"],
         [[("geometry", .geom 0), ("LGANAME", .str "A"), ("2020", .num 100)],
          [("geometry", .geom 1), ("LGANAME", .str "B"), ("2020", .num 200)]]⟩ := by
    decide
  have hcnt : toString vdC.rows.length ++ " / " ++ toString gdfC.rows.length
      = "2 / 3" := by decide
  refine ⟨hmdf, htot, hmed, ?_⟩
  unfold runApp
  rw [hload]
  simp only [hyear, hvdf, hmdf, htot, hmed, htop, hbot, hdisp1, hdisp2, hover, hcnt]
  rfl

/-! ## No-year-columns and empty-filter handling -/

/-- A population table with the key column but no all-digit column. -/
def popNoYears : DataFrame :=
  ⟨["LGANAME", "Notes"], [[("LGANAME", .str "A"), ("Notes", .str "x")]]⟩

/-- C6 counterexample: with a population table that has no all-digit
column, the script emits the inline error
"No numeric year columns were found in the CSV file." and halts
(`st.error` + `st.stop`, `app.py` lines 64-66); no page is rendered, so
the condition is not the claimed non-fatal warning with surrounding
sections still rendering. -/
theorem c6_counterexample :
    runApp (.ok gdfC) (.ok popNoYears) "data/lga.shp" "data/lga.csv" ""
      = .fatal "No numeric year columns were found in the CSV file."
    ∧ (runApp (.ok gdfC) (.ok popNoYears) "data/lga.shp" "data/lga.csv" "").isPage
      = false := by
  decide

/-- C6 amended: when the loaded population table has no all-digit column,
the condition is reported as a fatal inline error and rendering halts —
the same fatal treatment as the missing-file, read and schema errors —
rather than as a non-fatal warning. -/
theorem c6_no_year_columns_fatal (g p : DataFrame) (sp cp sel : String)
    (hg : "LGANAME" ∈ g.cols) (hp : "LGANAME" ∈ p.cols)
    (hyears : year_columns p = []) :
    runApp (.ok g) (.ok p) sp cp sel
      = .fatal "No numeric year columns were found in the CSV file." := by
  have hload : load_local_data (.ok g) (.ok p) sp cp = (some g, some p, none) := by
    simp [load_local_data, hg, hp]
  unfold runApp
  rw [hload]
  simp [hyears]

/-- Witness for C6 (amended): a table with only the key column halts the
render pass fatally. -/
theorem c6_no_year_columns_fatal_witness :
    runApp (.ok gdfC) (.ok ⟨["LGANAME"], []⟩) "data/lga.shp" "data/lga.csv" "2020"
      = .fatal "No numeric year columns were found in the CSV file." :=
  c6_no_year_columns_fatal gdfC ⟨["LGANAME"], []⟩ "data/lga.shp" "data/lga.csv" "2020"
    (by decide) (by decide) (by decide)

/-- C7: whenever the filtered dataset for the selected year is empty (and
the pass got past loading and year discovery), no error is raised: the
page renders with the base map at latitude -32.5, longitude 148.5, zoom
6, no choropleth overlay, and the statistics panel shows the
no-data-for-year warning and no statistics. -/
theorem c7_empty_filtered_state (g p : DataFrame) (sp cp sel : String)
    (hg : "LGANAME" ∈ g.cols) (hp : "LGANAME" ∈ p.cols)
    (hyears : year_columns p ≠ [])
    (hempty : (valid_data (merged_data g p) sel).rows = []) :
    runApp (.ok g) (.ok p) sp cp sel
      = .page
        { mapCenter := (-65/2, 297/2)
          mapZoom := 6
          overlay := none
          stats := .warning
            ("No population data available for the selected year: " ++ sel) } := by
  have hload : load_local_data (.ok g) (.ok p) sp cp = (some g, some p, none) := by
    simp [load_local_data, hg, hp]
  have hmd : (map_data (merged_data g p) sel).rows = [] := hempty
  have hy : (year_columns p).isEmpty = false := by
    cases hys : year_columns p with
    | nil => exact absurd hys hyears
    | cons a t => rfl
  unfold runApp
  rw [hload]
  simp [hy, hmd, hempty]

/-- Witness for C7: a population table whose only row matches no boundary
region leaves the 2020 filter empty and renders the empty state. -/
theorem c7_empty_filtered_state_witness :
    runApp (.ok gdfC) (.ok ⟨["LGANAME", "2020"],
        [[("LGANAME", .str "Z"), ("2020", .num 5)]]⟩)
      "data/lga.shp" "data/lga.csv" "2020"
      = .page
        { mapCenter := (-65/2, 297/2)
          mapZoom := 6
          overlay := none
          stats := .warning
            ("No population data available for the selected year: " ++ "2020") } :=
  c7_empty_filtered_state gdfC ⟨["LGANAME", "2020"],
      [[("LGANAME", .str "Z"), ("2020", .num 5)]]⟩
    "data/lga.shp" "data/lga.csv" "2020" (by decide) (by decide) (by decide) (by decide)

/-! ## Map projection claim (C9) -/

theorem isnumeric_ne_reserved {s : String} (h : str_isnumeric s = true) :
    s ≠ "geometry" ∧ s ≠ "LGANAME" := by
  constructor
  · intro e; subst e; exact absurd h (by decide)
  · intro e; subst e; exact absurd h (by decide)

/-- C9: for a selected year taken from the discovered year columns, when
the filtered dataset is non-empty the data handed to the choropleth is
`map_display_data`: a projection whose columns are exactly geometry, the
region identifier, and the selected year; every row carries exactly those
three fields, the geometry and identifier cells are copied from the
filtered row, and the year value is coerced to integer (truncation). -/
theorem c9_map_projection (g p : DataFrame) (sp cp sel : String)
    (hg : "LGANAME" ∈ g.cols) (hp : "LGANAME" ∈ p.cols)
    (hsel : sel ∈ year_columns p)
    (hnonempty : (map_data (merged_data g p) sel).rows ≠ []) :
    (∃ pg : Page, runApp (.ok g) (.ok p) sp cp sel = .page pg
      ∧ pg.overlay = some (map_display_data (map_data (merged_data g p) sel) sel))
    ∧ (map_display_data (map_data (merged_data g p) sel) sel).cols
      = ["geometry", "LGANAME", sel]
    ∧ (map_display_data (map_data (merged_data g p) sel) sel).rows
      = (map_data (merged_data g p) sel).rows.map (projRow sel)
    ∧ (∀ r ∈ (map_display_data (map_data (merged_data g p) sel) sel).rows,
        r.map Prod.fst = ["geometry", "LGANAME", sel])
    ∧ (∀ r0,
        getCell (projRow sel r0) "geometry" = some ((getCell r0 "geometry").getD .null)
        ∧ getCell (projRow sel r0) "LGANAME" = some ((getCell r0 "LGANAME").getD .null)
        ∧ (∀ q, getCell r0 sel = some (.num q) →
            getCell (projRow sel r0) sel = some (.num ((ratTrunc q : ℤ) : ℚ)))) := by
  have hnum : str_isnumeric sel = true := by
    have hmem : sel ∈ p.cols.filter str_isnumeric :=
      (List.perm_insertionSort strLeP _).subset hsel
    exact (List.mem_filter.mp hmem).2
  have hne := isnumeric_ne_reserved hnum
  have hbeq1 : (sel == "geometry") = false := beq_eq_false_iff_ne.mpr hne.1
  have hbeq2 : (sel == "LGANAME") = false := beq_eq_false_iff_ne.mpr hne.2
  refine ⟨?_, rfl, rfl, ?_, fun r0 => ⟨rfl, ?_, fun q hq => ?_⟩⟩
  · have hload : load_local_data (.ok g) (.ok p) sp cp = (some g, some p, none) := by
      simp [load_local_data, hg, hp]
    have hy : (year_columns p).isEmpty = false := by
      cases hys : year_columns p with
      | nil => rw [hys] at hsel; exact absurd hsel (List.not_mem_nil sel)
      | cons a t => rfl
    have hmd : (map_data (merged_data g p) sel).rows.isEmpty = false := by
      cases hms : (map_data (merged_data g p) sel).rows with
      | nil => exact absurd hms hnonempty
      | cons a t => rfl
    have hvd : (valid_data (merged_data g p) sel).rows.isEmpty = false := hmd
    unfold runApp
    rw [hload]
    simp only [hy, hmd, hvd, Bool.false_eq_true, if_false]
    exact ⟨_, rfl, rfl⟩
  · intro r hr
    have := List.mem_map.mp hr
    obtain ⟨r0, _, hr0⟩ := this
    rw [← hr0]
    rfl
  · simp [projRow, getCell, List.lookup, hbeq2]
  · have hq' : List.lookup sel r0 = some (Cell.num q) := hq
    simp [projRow, getCell, List.lookup, hbeq1, hbeq2, hq', cellAstypeInt]

/-- Witness for C9: the projection columns on the scenario data. -/
theorem c9_map_projection_witness :
    (map_display_data (map_data (merged_data gdfC popC) "2020") "2020").cols
      = ["geometry", "LGANAME", "2020"] :=
  (c9_map_projection gdfC popC "data/lga.shp" "data/lga.csv" "2020"
    (by decide) (by decide) (by decide) (by decide)).2.1

/-! ## Ranked-table claims (C8) -/

theorem rTop_le {y : String} {a b : ℕ × Row} (h : rTop y a b) :
    yearVal y b.2 ≤ yearVal y a.2 := by
  simp only [rTop, lexLe, keyTop] at h
  rcases h with h | ⟨h, _⟩
  · exact (neg_lt_neg_iff.mp h).le
  · exact (neg_inj.mp h).ge

theorem rBot_le {y : String} {a b : ℕ × Row} (h : rBot y a b) :
    yearVal y a.2 ≤ yearVal y b.2 := by
  simp only [rBot, lexLe, keyBot] at h
  rcases h with h | ⟨h, _⟩
  · exact h.le
  · exact h.le

/-- C8: for every non-empty filtered dataset, `nlargest`/`nsmallest` are
the first five rows of a stable sort of the indexed rows — sorted under
`rTop`/`rBot`, i.e. descending (resp. ascending) by the year value with
ties broken by ascending original position — so the top table holds the 5
highest values sorted descending and the bottom table the 5 lowest sorted
ascending (all rows when fewer than 5), every taken row dominates every
dropped row, and each displayed entry is the region name with the value
formatted as a thousands-separated integer. -/
theorem c8_ranked_tables (vd : DataFrame) (y : String) (_hne : vd.rows ≠ []) :
    (pdNlargest 5 y vd.rows).length = min 5 vd.rows.length
    ∧ (pdNsmallest 5 y vd.rows).length = min 5 vd.rows.length
    ∧ List.Perm ((vd.rows.enum.insertionSort (rTop y)).map Prod.snd) vd.rows
    ∧ List.Perm ((vd.rows.enum.insertionSort (rBot y)).map Prod.snd) vd.rows
    ∧ List.Sorted (rTop y) (vd.rows.enum.insertionSort (rTop y))
    ∧ List.Sorted (rBot y) (vd.rows.enum.insertionSort (rBot y))
    ∧ pdNlargest 5 y vd.rows
      = ((vd.rows.enum.insertionSort (rTop y)).take 5).map Prod.snd
    ∧ pdNsmallest 5 y vd.rows
      = ((vd.rows.enum.insertionSort (rBot y)).take 5).map Prod.snd
    ∧ List.Sorted (fun r1 r2 => yearVal y r2 ≤ yearVal y r1) (pdNlargest 5 y vd.rows)
    ∧ List.Sorted (fun r1 r2 => yearVal y r1 ≤ yearVal y r2) (pdNsmallest 5 y vd.rows)
    ∧ (∀ a ∈ (vd.rows.enum.insertionSort (rTop y)).take 5,
        ∀ b ∈ (vd.rows.enum.insertionSort (rTop y)).drop 5,
          yearVal y b.2 ≤ yearVal y a.2)
    ∧ (∀ a ∈ (vd.rows.enum.insertionSort (rBot y)).take 5,
        ∀ b ∈ (vd.rows.enum.insertionSort (rBot y)).drop 5,
          yearVal y a.2 ≤ yearVal y b.2)
    ∧ topTable vd y
      = (pdNlargest 5 y vd.rows).map (fun r => (lganameOf r, fmtPop (yearVal y r)))
    ∧ bottomTable vd y
      = (pdNsmallest 5 y vd.rows).map
          (fun r => (lganameOf r, fmtPop (yearVal y r))) := by
  have psortT := List.perm_insertionSort (rTop y) vd.rows.enum
  have psortB := List.perm_insertionSort (rBot y) vd.rows.enum
  have sortedT := List.sorted_insertionSort (rTop y) vd.rows.enum
  have sortedB := List.sorted_insertionSort (rBot y) vd.rows.enum
  have permT : List.Perm ((vd.rows.enum.insertionSort (rTop y)).map Prod.snd) vd.rows := by
    have h := psortT.map Prod.snd
    rwa [List.enum_map_snd] at h
  have permB : List.Perm ((vd.rows.enum.insertionSort (rBot y)).map Prod.snd) vd.rows := by
    have h := psortB.map Prod.snd
    rwa [List.enum_map_snd] at h
  have eqT : pdNlargest 5 y vd.rows
      = ((vd.rows.enum.insertionSort (rTop y)).take 5).map Prod.snd :=
    (List.map_take Prod.snd _ 5).symm
  have eqB : pdNsmallest 5 y vd.rows
      = ((vd.rows.enum.insertionSort (rBot y)).take 5).map Prod.snd :=
    (List.map_take Prod.snd _ 5).symm
  have hlenT : (pdNlargest 5 y vd.rows).length = min 5 vd.rows.length := by
    unfold pdNlargest
    rw [List.length_take, List.length_map, psortT.length_eq, List.enum_length]
  have hlenB : (pdNsmallest 5 y vd.rows).length = min 5 vd.rows.length := by
    unfold pdNsmallest
    rw [List.length_take, List.length_map, psortB.length_eq, List.enum_length]
  have takeT : List.Pairwise (rTop y)
      ((vd.rows.enum.insertionSort (rTop y)).take 5) :=
    List.Pairwise.sublist (List.take_sublist 5 _) sortedT
  have takeB : List.Pairwise (rBot y)
      ((vd.rows.enum.insertionSort (rBot y)).take 5) :=
    List.Pairwise.sublist (List.take_sublist 5 _) sortedB
  have sortedTakeT : List.Sorted (fun r1 r2 => yearVal y r2 ≤ yearVal y r1)
      (pdNlargest 5 y vd.rows) := by
    rw [eqT]
    exact List.pairwise_map.mpr (takeT.imp rTop_le)
  have sortedTakeB : List.Sorted (fun r1 r2 => yearVal y r1 ≤ yearVal y r2)
      (pdNsmallest 5 y vd.rows) := by
    rw [eqB]
    exact List.pairwise_map.mpr (takeB.imp rBot_le)
  have domT : ∀ a ∈ (vd.rows.enum.insertionSort (rTop y)).take 5,
      ∀ b ∈ (vd.rows.enum.insertionSort (rTop y)).drop 5,
        yearVal y b.2 ≤ yearVal y a.2 := by
    have h2 : List.Pairwise (rTop y)
        ((vd.rows.enum.insertionSort (rTop y)).take 5
          ++ (vd.rows.enum.insertionSort (rTop y)).drop 5) := by
      rw [List.take_append_drop]
      exact sortedT
    intro a ha b hb
    exact rTop_le ((List.pairwise_append.mp h2).2.2 a ha b hb)
  have domB : ∀ a ∈ (vd.rows.enum.insertionSort (rBot y)).take 5,
      ∀ b ∈ (vd.rows.enum.insertionSort (rBot y)).drop 5,
        yearVal y a.2 ≤ yearVal y b.2 := by
    have h2 : List.Pairwise (rBot y)
        ((vd.rows.enum.insertionSort (rBot y)).take 5
          ++ (vd.rows.enum.insertionSort (rBot y)).drop 5) := by
      rw [List.take_append_drop]
      exact sortedB
    intro a ha b hb
    exact rBot_le ((List.pairwise_append.mp h2).2.2 a ha b hb)
  exact ⟨hlenT, hlenB, permT, permB, sortedT, sortedB, eqT, eqB,
    sortedTakeT, sortedTakeB, domT, domB, rfl, rfl⟩

/-- Witness for C8: the length equation on the two-row filtered
dataset of the scenario. -/
theorem c8_ranked_tables_witness :
    (pdNlargest 5 "2020" vdC.rows).length = min 5 vdC.rows.length :=
  (c8_ranked_tables vdC "2020" (by decide)).1

end NswDashboard
